import Mathlib

/-!
Shallow embedding of `src/image-backend.py` (a Flask backend that normalizes an
uploaded image and orchestrates OpenAI analysis / generation / edit / variation
calls), together with theorems settling the specification claims about it.

Modelling conventions:
* An image is its pixel grid plus width/height/mode metadata; PNG re-encoding is
  lossless, so images are compared at the pixel level and the output buffer
  records its `format` string (`save(..., format='PNG')` in the source).
* PIL operations are embedded by their documented semantics: `crop((l,t,r,b))`
  yields an `(r-l) x (b-t)` image whose pixel `(x,y)` is the source pixel
  `(x+l, y+t)`; `resize(size)` returns an unmodified copy when the size already
  matches (Pillow short-circuits in that case) and otherwise an image of exactly
  the requested size in the same mode, produced by a resampling kernel.  The
  LANCZOS kernel only affects resampled pixel values, which no claim depends on,
  so the kernel is a parameter (`Resample`) constrained to PIL's dimension/mode
  contract; `nearestKernel` is a concrete instance used to evaluate theorems.
* HTTP handlers are pure functions from the request plus the outcomes of the
  external OpenAI calls (passed as `Except` parameters, success payload or
  `str(e)`) to the `(response, attempted external calls)` pair.  The list of
  `Call`s records exactly the API invocations the handler reaches, with the
  arguments the source passes.
* Python `str.strip()` is `pyStrip`; Python's `needle in haystack` is `strIn`.
* The provider credential is `Option String` (`os.getenv` result); Python's
  falsy test `if not os.getenv(...)` is `envTruthy`.
-/

namespace ImageBackend

/-- An RGBA pixel value (channel meaning depends on the image mode). -/
structure Pix where
  r : Nat
  g : Nat
  b : Nat
  a : Nat
deriving Repr, DecidableEq

/-- A decoded raster image: dimensions, PIL mode string, and pixel grid. -/
structure Img where
  width : Nat
  height : Nat
  mode : String
  px : Nat → Nat → Pix

/-- A resampling kernel together with PIL's contract for `Image.resize`:
the result has exactly the requested dimensions and the source mode. -/
structure Resample where
  f : Nat → Nat → Img → Img
  width_eq : ∀ w h i, (f w h i).width = w
  height_eq : ∀ w h i, (f w h i).height = h
  mode_eq : ∀ w h i, (f w h i).mode = i.mode

/-- A concrete nearest-neighbour kernel, used to evaluate theorems on
concrete inputs. -/
def nearestKernel : Resample where
  f := fun w h i =>
    ⟨w, h, i.mode, fun x y => i.px (x * i.width / w) (y * i.height / h)⟩
  width_eq := fun _ _ _ => rfl
  height_eq := fun _ _ _ => rfl
  mode_eq := fun _ _ _ => rfl

/-- PIL `Image.convert('RGBA')`: same dimensions, mode becomes RGBA; modes
without an alpha channel get a fully opaque alpha. -/
def convertRGBA (image : Img) : Img :=
  { width := image.width, height := image.height, mode := "RGBA",
    px := fun x y =>
      let p := image.px x y
      if image.mode = "LA" ∨ image.mode = "PA" then p else { p with a := 255 } }

/-- Lines 23-24 of the source: convert to RGBA unless already RGBA. -/
def toRGBA (image : Img) : Img :=
  if image.mode ≠ "RGBA" then convertRGBA image else image

/-- PIL `Image.crop((left, top, right, bottom))` for an in-bounds box. -/
def crop (image : Img) (left top right bottom : Nat) : Img :=
  { width := right - left, height := bottom - top, mode := image.mode,
    px := fun x y => image.px (x + left) (y + top) }

/-- PIL `Image.resize((w,h), kernel)`: Pillow returns a plain copy when the
size is already `(w,h)` (and no box is given), otherwise resamples. -/
def resizePIL (R : Resample) (image : Img) (w h : Nat) : Img :=
  if image.width = w ∧ image.height = h then image else R.f w h image

/-- The in-memory PNG buffer returned by `prepare_image_for_edit`
(`save(img_byte_arr, format='PNG')`); PNG is lossless, so the buffer is
modelled as the encoded image plus the format string. -/
structure EncodedImage where
  image : Img
  format : String

/-- Embedding of `prepare_image_for_edit` (source lines 16-49).  `decoded` is
the outcome of `Image.open` on the input bytes (`none` when the bytes are not a
decodable image, in which case the function raises, modelled as `Except.error`
with PIL's message wrapped as in line 49). -/
def prepare_image_for_edit (R : Resample) (decoded : Option Img) :
    Except String EncodedImage :=
  match decoded with
  | none => Except.error "Image preparation failed: cannot identify image file"
  | some image0 =>
    let image := toRGBA image0
    let size := min image.width image.height
    let left := (image.width - size) / 2
    let top := (image.height - size) / 2
    let right := left + size
    let bottom := top + size
    let square_image := crop image left top right bottom
    let square_image2 := resizePIL R square_image 1024 1024
    Except.ok ⟨square_image2, "PNG"⟩

/-- Whitespace for Python `str.strip()` (ASCII subset, which covers every
string these handlers strip). -/
def isPySpace (c : Char) : Bool :=
  c = ' ' || c = '\t' || c = '\n' || c = '\r' || c = '\x0b' || c = '\x0c'

/-- Python `s.strip()`. -/
def pyStrip (s : String) : String :=
  String.mk (((s.toList.dropWhile isPySpace).reverse.dropWhile isPySpace).reverse)

/-- Does the first list start with the second? -/
def leadsWith : List Char → List Char → Bool
  | _, [] => true
  | [], _ :: _ => false
  | a :: as, b :: bs => a == b && leadsWith as bs

/-- Contiguous-substring test on character lists. -/
def hasSub : List Char → List Char → Bool
  | hay, needle =>
    match hay with
    | [] => needle.isEmpty
    | _ :: rest => leadsWith hay needle || hasSub rest needle

/-- Python `needle in hay` for strings. -/
def strIn (needle hay : String) : Bool :=
  hasSub hay.toList needle.toList

/-- Python truthiness of an `os.getenv` result: `None` and the empty string
are falsy. -/
def envTruthy : Option String → Bool
  | none => false
  | some s => !(s == "")

/-- One part of `request.files`: a filename and the bytes `.read()` returns. -/
structure UploadedFile where
  filename : String
  content : List Nat
deriving Repr, DecidableEq

/-- The parts of a Flask request these handlers read. -/
structure Request where
  files : List (String × UploadedFile)
  form : List (String × String)
deriving Repr, DecidableEq

def getFile (req : Request) (key : String) : Option UploadedFile :=
  req.files.lookup key

def getForm (req : Request) (key : String) : Option String :=
  req.form.lookup key

/-- An HTTP response: status code and the flat JSON object `jsonify` builds,
as key/value pairs in insertion order (every value in this backend is a
string). -/
structure Response where
  status : Nat
  body : List (String × String)
deriving Repr, DecidableEq

/-- An external OpenAI API invocation, recorded with the arguments the source
passes at the call site. -/
inductive Call where
  | chatCompletion (model : String) (instruction : String)
  | imagesEdit (image : Img) (mask : Option Img) (prompt : String)
      (n : Nat) (size : String)
  | imagesGenerate (model : String) (prompt : String) (size : String)
      (quality : String) (n : Nat)
  | imagesVariation (image : Img) (n : Nat) (size : String)

/-- Is this call an image-generation call? -/
def Call.isGenerate : Call → Bool
  | .imagesGenerate _ _ _ _ _ => true
  | _ => false

/-- The `mask` argument of an edit call (`none` for other calls). -/
def Call.editMask : Call → Option (Option Img)
  | .imagesEdit _ m _ _ _ => some m
  | _ => none

/-- Width, height and mode of the image submitted to an edit call. -/
def Call.editImageDims : Call → Option (Nat × Nat × String)
  | .imagesEdit i _ _ _ _ => some (i.width, i.height, i.mode)
  | _ => none

/-- The prompt submitted to a generation call (`none` for other calls). -/
def Call.genPrompt : Call → Option String
  | .imagesGenerate _ p _ _ _ => some p
  | _ => none

/-- Embedding of the `/edit-image` handler (source lines 87-153).  `apiKey` is
the `OPENAI_API_KEY` environment value, `decodeF` decodes uploaded bytes
(`Image.open`), and `editApi` is the outcome of `client.images.edit` (the
returned URL, or `str(e)` when it raises).  Returns the response and the list
of external calls attempted. -/
def edit_image (R : Resample) (apiKey : Option String) (req : Request)
    (decodeF : List Nat → Option Img) (editApi : Except String String) :
    Response × List Call :=
  match envTruthy apiKey with
  | false =>
    (⟨500, [("error", "OpenAI API key not configured")]⟩, [])
  | true =>
    match getFile req "image", getForm req "prompt" with
    | some image_file, some rawPrompt =>
      let edit_prompt := pyStrip rawPrompt
      if edit_prompt = "" then
        (⟨400, [("error", "Edit prompt cannot be empty")]⟩, [])
      else if image_file.filename = "" then
        (⟨400, [("error", "No image file selected")]⟩, [])
      else
        let image_bytes := image_file.content
        if image_bytes = [] then
          (⟨400, [("error", "Empty image file")]⟩, [])
        else
          match prepare_image_for_edit R (decodeF image_bytes) with
          | Except.error e =>
            (⟨500, [("error", "Failed to prepare image"), ("details", e)]⟩, [])
          | Except.ok prepared =>
            let call := Call.imagesEdit prepared.image none edit_prompt 1 "1024x1024"
            match editApi with
            | Except.ok url =>
              (⟨200, [("image_url", url), ("edit_prompt", edit_prompt),
                      ("method", "OpenAI Edit API")]⟩, [call])
            | Except.error e =>
              if strIn "429" e then
                (⟨429, [("error", "Rate limit exceeded"),
                        ("message", "Too many edit requests. Please wait before trying again."),
                        ("details", e)]⟩, [call])
              else
                (⟨500, [("error", "Failed to edit image"), ("details", e)]⟩, [call])
    | _, _ => (⟨400, [("error", "Missing image or prompt")]⟩, [])

/-- Embedding of the `/generate-variation` handler (source lines 155-186).
The handler never reads the credential (no `os.getenv` in its body), hence the
unused `_apiKey`; a failure of `prepare_image_for_edit` is caught by the
handler's single `except` clause, producing the same 500 body as an API
failure. -/
def generate_variation (R : Resample) (_apiKey : Option String) (req : Request)
    (decodeF : List Nat → Option Img) (variationApi : Except String String) :
    Response × List Call :=
  match getFile req "image" with
  | none => (⟨400, [("error", "Missing image")]⟩, [])
  | some image_file =>
    match prepare_image_for_edit R (decodeF image_file.content) with
    | Except.error e =>
      (⟨500, [("error", "Failed to generate variation"), ("details", e)]⟩, [])
    | Except.ok prepared =>
      let call := Call.imagesVariation prepared.image 1 "1024x1024"
      match variationApi with
      | Except.ok url =>
        (⟨200, [("image_url", url), ("method", "OpenAI Variation API")]⟩, [call])
      | Except.error e =>
        (⟨500, [("error", "Failed to generate variation"), ("details", e)]⟩, [call])

/-- Embedding of the `/generate-smart` handler (source lines 188-289).  The
handler never reads the credential or decodes the image (the raw bytes are
base64-forwarded to the analysis call); `chatApi` is the outcome of
`client.chat.completions.create` (the message content, or `str(e)`), and
`dalleApi` the outcome of `client.images.generate`. -/
def generate_smart (_apiKey : Option String) (req : Request)
    (chatApi : Except String String) (dalleApi : Except String String) :
    Response × List Call :=
  match getFile req "image", getForm req "prompt" with
  | some _image_file, some rawPrompt =>
    let modification_request := pyStrip rawPrompt
    let analysisCall := Call.chatCompletion "gpt-4o" modification_request
    match chatApi with
    | Except.error e =>
      (⟨500, [("error", "Failed to analyze image"), ("details", e)]⟩, [analysisCall])
    | Except.ok content =>
      let dalle_prompt := pyStrip content
      let genCall := Call.imagesGenerate "dall-e-3" dalle_prompt "1024x1024" "hd" 1
      match dalleApi with
      | Except.error e =>
        if strIn "429" e then
          (⟨429, [("error", "Rate limit exceeded"),
                  ("message", "Too many requests. Please wait before trying again.")]⟩,
           [analysisCall, genCall])
        else
          (⟨500, [("error", "Failed to generate image"), ("details", e)]⟩,
           [analysisCall, genCall])
      | Except.ok url =>
        (⟨200, [("image_url", url), ("prompt_used", dalle_prompt),
                ("method", "Smart DALL-E Generation")]⟩, [analysisCall, genCall])
  | _, _ => (⟨400, [("error", "Missing image or prompt")]⟩, [])

/-- A 1024x1024 RGBA image with a constant pixel, used as an
already-normalized concrete input. -/
def constImg : Img :=
  ⟨1024, 1024, "RGBA", fun _ _ => ⟨0, 0, 0, 255⟩⟩

/-- A concrete well-formed `/edit-image` request. -/
def reqEdit : Request :=
  ⟨[("image", ⟨"a.png", [7]⟩)], [("prompt", "make it blue")]⟩

/-- A decoder that decodes every byte string to a concrete 2x1 RGB image. -/
def decodeWide : List Nat → Option Img :=
  fun _ => some ⟨2, 1, "RGB", fun _ _ => ⟨5, 5, 5, 0⟩⟩

/-- A decoder that rejects every byte string. -/
def decodeNever : List Nat → Option Img :=
  fun _ => none

/-- A concrete `/generate-smart` request whose prompt is a single space
(blank after stripping). -/
def reqBlankPrompt : Request :=
  ⟨[("image", ⟨"a.png", [1, 2, 3]⟩)], [("prompt", " ")]⟩

/-- A concrete well-formed `/generate-smart` request. -/
def reqSmart : Request :=
  ⟨[("image", ⟨"a.png", [1]⟩)], [("prompt", "make it nighttime")]⟩

/-- A concrete well-formed `/generate-variation` request. -/
def reqVar : Request :=
  ⟨[("image", ⟨"b.jpg", [9, 9]⟩)], []⟩

/-- An analysis reply that contains the section markers from the spec's own
end-to-end scenario. -/
def markerReply : String :=
  "ANALYSIS: a park at noon\nDALL-E PROMPT: a park at night"

theorem toRGBA_width (i : Img) : (toRGBA i).width = i.width := by
  unfold toRGBA convertRGBA
  split <;> rfl

theorem toRGBA_height (i : Img) : (toRGBA i).height = i.height := by
  unfold toRGBA convertRGBA
  split <;> rfl

theorem toRGBA_mode (i : Img) : (toRGBA i).mode = "RGBA" := by
  unfold toRGBA convertRGBA
  split
  · rfl
  · next h => exact not_not.mp h

theorem resizePIL_width (R : Resample) (i : Img) (w h : Nat) :
    (resizePIL R i w h).width = w := by
  unfold resizePIL
  split
  · next hc => exact hc.1
  · exact R.width_eq w h i

theorem resizePIL_height (R : Resample) (i : Img) (w h : Nat) :
    (resizePIL R i w h).height = h := by
  unfold resizePIL
  split
  · next hc => exact hc.2
  · exact R.height_eq w h i

theorem resizePIL_mode (R : Resample) (i : Img) (w h : Nat) :
    (resizePIL R i w h).mode = i.mode := by
  unfold resizePIL
  split
  · rfl
  · exact R.mode_eq w h i

/-- Closed form of `prepare_image_for_edit` on a decodable input, with the
crop box expressed through the input dimensions. -/
theorem prepare_eq (R : Resample) (img : Img) :
    prepare_image_for_edit R (some img)
      = Except.ok ⟨resizePIL R
          (crop (toRGBA img)
            ((img.width - min img.width img.height) / 2)
            ((img.height - min img.width img.height) / 2)
            ((img.width - min img.width img.height) / 2 + min img.width img.height)
            ((img.height - min img.width img.height) / 2 + min img.width img.height))
          1024 1024, "PNG"⟩ := by
  simp only [prepare_image_for_edit, toRGBA_width, toRGBA_height]

/-- C1: for every decodable input of width W and height H,
`prepare_image_for_edit` crops a centered square of side `min W H` with left
offset `(W - side) / 2` and top offset `(H - side) / 2` (floor division), and
the final output is exactly 1024x1024 in RGBA mode, encoded as PNG, for any
input aspect ratio. -/
theorem prepare_centered_square_target (R : Resample) (img : Img) :
    ∃ out : EncodedImage,
      prepare_image_for_edit R (some img) = Except.ok out ∧
      out.format = "PNG" ∧
      out.image.width = 1024 ∧ out.image.height = 1024 ∧
      out.image.mode = "RGBA" ∧
      ∃ square : Img,
        out.image = resizePIL R square 1024 1024 ∧
        square.width = min img.width img.height ∧
        square.height = min img.width img.height ∧
        square.mode = "RGBA" ∧
        ∀ x y, square.px x y =
          (toRGBA img).px (x + (img.width - min img.width img.height) / 2)
            (y + (img.height - min img.width img.height) / 2) := by
  rw [prepare_eq]
  refine ⟨_, rfl, rfl, resizePIL_width R _ 1024 1024,
    resizePIL_height R _ 1024 1024, ?_, _, rfl, ?_, ?_, ?_, fun x y => rfl⟩
  · rw [resizePIL_mode]
    exact toRGBA_mode img
  · simp [crop]
  · simp [crop]
  · exact toRGBA_mode img

/-- C9: normalization is deterministic (as a pure function of the decoded
input, identical inputs give identical outputs) and idempotent at the pixel
level: on an already-normalized image (1024x1024, RGBA) the crop is the whole
canvas and the resize is PIL's same-size copy, so every output pixel equals
the input pixel and the dimensions and mode are unchanged (re-encoding to PNG
is lossless). -/
theorem normalization_deterministic_idempotent (R : Resample) (d : Option Img)
    (img : Img) (hw : img.width = 1024) (hh : img.height = 1024)
    (hm : img.mode = "RGBA") :
    prepare_image_for_edit R d = prepare_image_for_edit R d ∧
    ∃ out : EncodedImage,
      prepare_image_for_edit R (some img) = Except.ok out ∧
      out.image.width = img.width ∧ out.image.height = img.height ∧
      out.image.mode = img.mode ∧ ∀ x y, out.image.px x y = img.px x y := by
  refine ⟨rfl, ?_⟩
  have htR : toRGBA img = img := by
    unfold toRGBA
    rw [hm]
    simp
  rw [prepare_eq, htR, hw, hh]
  simp only [min_self, Nat.sub_self, Nat.zero_div, Nat.zero_add]
  have hcw : (crop img 0 0 1024 1024).width = 1024 := by simp [crop]
  have hch : (crop img 0 0 1024 1024).height = 1024 := by simp [crop]
  have hres : resizePIL R (crop img 0 0 1024 1024) 1024 1024
      = crop img 0 0 1024 1024 := by
    unfold resizePIL
    rw [if_pos ⟨hcw, hch⟩]
  rw [hres]
  refine ⟨_, rfl, ?_, ?_, ?_, fun x y => ?_⟩
  · exact hcw
  · exact hch
  · simp [crop]
  · simp [crop]

/-- Witness for C9 at a concrete already-normalized image. -/
theorem normalization_deterministic_idempotent_witness :
    constImg.width = 1024 ∧ constImg.height = 1024 ∧ constImg.mode = "RGBA" ∧
    (prepare_image_for_edit nearestKernel none
        = prepare_image_for_edit nearestKernel none ∧
      ∃ out : EncodedImage,
        prepare_image_for_edit nearestKernel (some constImg) = Except.ok out ∧
        out.image.width = constImg.width ∧
        out.image.height = constImg.height ∧
        out.image.mode = constImg.mode ∧
        ∀ x y, out.image.px x y = constImg.px x y) :=
  ⟨rfl, rfl, rfl,
    normalization_deterministic_idempotent nearestKernel none constImg rfl rfl rfl⟩

/-- C10: in the `/edit-image` handler the credential check (source line 93)
runs before any request validation (source lines 96-110): with the credential
unset, every request — including ones missing the image or the prompt —
receives the 500 configuration-error response, never a 400, and no external
call is attempted. -/
theorem edit_key_check_precedes_validation (R : Resample) (req : Request)
    (decodeF : List Nat → Option Img) (editApi : Except String String) :
    (edit_image R none req decodeF editApi).1.status = 500 ∧
    (edit_image R none req decodeF editApi).1.body
      = [("error", "OpenAI API key not configured")] ∧
    (edit_image R none req decodeF editApi).1.status ≠ 400 ∧
    (edit_image R none req decodeF editApi).2 = [] := by
  refine ⟨rfl, rfl, ?_, rfl⟩
  intro hc
  have h5 : (500 : Nat) = 400 := hc
  exact absurd h5 (by decide)

/-- C2 counterexample: a `/generate-smart` request whose prompt is a single
space (so the instruction is empty after trimming) is not rejected with a
client error — the handler proceeds, both external calls are made, and the
response is 200. -/
theorem smart_blank_prompt_not_rejected :
    pyStrip " " = "" ∧
    (generate_smart (some "k") reqBlankPrompt (Except.ok "p")
        (Except.ok "u")).1.status = 200 ∧
    (generate_smart (some "k") reqBlankPrompt (Except.ok "p")
        (Except.ok "u")).2.length = 2 :=
  ⟨rfl, rfl, rfl⟩

/-- C2 amended: on `/edit-image` a missing image or prompt, a prompt that is
empty after trimming, an empty filename, and a zero-byte payload each yield a
400 response with no external call; on `/generate-smart` only a missing image
or prompt is rejected (400, no call); on `/generate-variation` only a missing
image is rejected (400, no call), and a payload that does not decode (such as
zero bytes) yields a 500, not a 4xx, though still with no external call. -/
theorem validation_per_route (R : Resample) (key : Option String)
    (hkey : envTruthy key = true) (req : Request)
    (decodeF : List Nat → Option Img)
    (editApi chatApi dalleApi variationApi : Except String String) :
    ((getFile req "image" = none ∨ getForm req "prompt" = none) →
      edit_image R key req decodeF editApi
        = (⟨400, [("error", "Missing image or prompt")]⟩, [])) ∧
    (∀ f p, getFile req "image" = some f → getForm req "prompt" = some p →
      (pyStrip p = "" →
        edit_image R key req decodeF editApi
          = (⟨400, [("error", "Edit prompt cannot be empty")]⟩, [])) ∧
      (pyStrip p ≠ "" → f.filename = "" →
        edit_image R key req decodeF editApi
          = (⟨400, [("error", "No image file selected")]⟩, [])) ∧
      (pyStrip p ≠ "" → f.filename ≠ "" → f.content = [] →
        edit_image R key req decodeF editApi
          = (⟨400, [("error", "Empty image file")]⟩, []))) ∧
    ((getFile req "image" = none ∨ getForm req "prompt" = none) →
      generate_smart key req chatApi dalleApi
        = (⟨400, [("error", "Missing image or prompt")]⟩, [])) ∧
    (getFile req "image" = none →
      generate_variation R key req decodeF variationApi
        = (⟨400, [("error", "Missing image")]⟩, [])) ∧
    (∀ f, getFile req "image" = some f → decodeF f.content = none →
      (generate_variation R key req decodeF variationApi).1.status = 500 ∧
      (generate_variation R key req decodeF variationApi).2 = []) := by
  refine ⟨?_, ?_, ?_, ?_, ?_⟩
  · intro h
    rcases h with h | h
    · simp [edit_image, hkey, h]
    · rcases hF : getFile req "image" with _ | f
      · simp [edit_image, hkey, hF]
      · simp [edit_image, hkey, hF, h]
  · intro f p hf hp
    refine ⟨?_, ?_, ?_⟩
    · intro hps
      simp [edit_image, hkey, hf, hp, hps]
    · intro hps hfn
      simp [edit_image, hkey, hf, hp, hps, hfn]
    · intro hps hfn hc
      simp [edit_image, hkey, hf, hp, hps, hfn, hc]
  · intro h
    rcases h with h | h
    · simp [generate_smart, h]
    · rcases hF : getFile req "image" with _ | f
      · simp [generate_smart, hF]
      · simp [generate_smart, hF, h]
  · intro h
    simp [generate_variation, h]
  · intro f hf hd
    simp [generate_variation, prepare_image_for_edit, hf, hd]

/-- Witness for C2 (amended): the missing-fields branch of `/edit-image` at a
concrete empty request. -/
theorem validation_per_route_witness :
    edit_image nearestKernel (some "k") ⟨[], []⟩ decodeNever (Except.ok "u")
      = (⟨400, [("error", "Missing image or prompt")]⟩, []) :=
  (validation_per_route nearestKernel (some "k") rfl ⟨[], []⟩ decodeNever
      (Except.ok "u") (Except.ok "c") (Except.ok "d") (Except.ok "v")).1
    (Or.inl rfl)

/-- C3: in `/generate-smart`, when the analysis (chat-completion) call fails,
the request ends with the 500 analysis-failure response and the
image-generation call is never attempted. -/
theorem analysis_failure_short_circuits (key : Option String) (req : Request)
    (f : UploadedFile) (p : String) (hf : getFile req "image" = some f)
    (hp : getForm req "prompt" = some p) (e : String)
    (dalleApi : Except String String) :
    (generate_smart key req (Except.error e) dalleApi).1.status = 500 ∧
    (generate_smart key req (Except.error e) dalleApi).1.body
      = [("error", "Failed to analyze image"), ("details", e)] ∧
    ∀ c ∈ (generate_smart key req (Except.error e) dalleApi).2,
      c.isGenerate = false := by
  unfold generate_smart
  rw [hf, hp]
  refine ⟨rfl, rfl, ?_⟩
  intro c hc
  simp only [List.mem_singleton] at hc
  rw [hc]
  rfl

/-- Witness for C3 at a concrete request and analysis error. -/
theorem analysis_failure_short_circuits_witness :
    (generate_smart (some "k") reqSmart (Except.error "boom")
        (Except.ok "u")).1.status = 500 ∧
    (generate_smart (some "k") reqSmart (Except.error "boom")
        (Except.ok "u")).1.body
      = [("error", "Failed to analyze image"), ("details", "boom")] ∧
    ∀ c ∈ (generate_smart (some "k") reqSmart (Except.error "boom")
        (Except.ok "u")).2, c.isGenerate = false :=
  analysis_failure_short_circuits (some "k") reqSmart ⟨"a.png", [1]⟩
    "make it nighttime" rfl rfl "boom" (Except.ok "u")

/-- C4 counterexample: a `/edit-image` request with no mask field leads to an
edit call whose `mask` argument is absent (`none`) — the source passes no mask
to `client.images.edit` at all, so no full-coverage mask is submitted. -/
theorem edit_submits_no_mask_cex :
    ((edit_image nearestKernel (some "k") reqEdit decodeWide
        (Except.ok "https://u")).2.map Call.editMask) = [some none] := rfl

/-- C4 amended: for every `/edit-image` request that reaches the edit call
(the route never reads a mask field), the submitted call carries no mask
argument, and the submitted image is the 1024x1024 RGBA normalized image; the
provider is left to derive editable regions from the image itself. -/
theorem edit_call_no_mask (R : Resample) (key : Option String)
    (hkey : envTruthy key = true) (req : Request) (f : UploadedFile)
    (p : String) (hf : getFile req "image" = some f)
    (hp : getForm req "prompt" = some p) (hps : pyStrip p ≠ "")
    (hfn : f.filename ≠ "") (hc : f.content ≠ [])
    (decodeF : List Nat → Option Img) (img : Img)
    (hd : decodeF f.content = some img) (editApi : Except String String) :
    ∃ prepared : Img,
      (edit_image R key req decodeF editApi).2
        = [Call.imagesEdit prepared none (pyStrip p) 1 "1024x1024"] ∧
      prepared.width = 1024 ∧ prepared.height = 1024 ∧
      prepared.mode = "RGBA" := by
  have h2 : (edit_image R key req decodeF editApi).2
      = [Call.imagesEdit (resizePIL R (crop (toRGBA img)
          ((img.width - min img.width img.height) / 2)
          ((img.height - min img.width img.height) / 2)
          ((img.width - min img.width img.height) / 2 + min img.width img.height)
          ((img.height - min img.width img.height) / 2 + min img.width img.height))
          1024 1024) none (pyStrip p) 1 "1024x1024"] := by
    rcases editApi with e | u
    · simp only [edit_image, hkey, hf, hp]
      rw [if_neg hps, if_neg hfn, if_neg hc, hd, prepare_eq]
      by_cases h429 : strIn "429" e = true
      · simp [h429]
      · simp [h429]
    · simp only [edit_image, hkey, hf, hp]
      rw [if_neg hps, if_neg hfn, if_neg hc, hd, prepare_eq]
  refine ⟨_, h2, resizePIL_width R _ 1024 1024,
    resizePIL_height R _ 1024 1024, ?_⟩
  rw [resizePIL_mode]
  exact toRGBA_mode img

/-- Witness for C4 (amended) at a concrete request and decoded image. -/
theorem edit_call_no_mask_witness :
    ∃ prepared : Img,
      (edit_image nearestKernel (some "k") reqEdit decodeWide
          (Except.ok "https://u")).2
        = [Call.imagesEdit prepared none (pyStrip "make it blue") 1
            "1024x1024"] ∧
      prepared.width = 1024 ∧ prepared.height = 1024 ∧
      prepared.mode = "RGBA" :=
  edit_call_no_mask nearestKernel (some "k") rfl reqEdit ⟨"a.png", [7]⟩
    "make it blue" rfl rfl (by decide) (by decide) (by decide) decodeWide
    ⟨2, 1, "RGB", fun _ _ => ⟨5, 5, 5, 0⟩⟩ rfl (Except.ok "https://u")

/-- C5 counterexample: an analysis reply containing the recognized section
markers (the spec's own example) is forwarded whole (trimmed) to the
generation call — the text between the markers is not extracted. -/
theorem marker_sections_not_extracted :
    ((generate_smart (some "k") reqSmart (Except.ok markerReply)
        (Except.ok "https://example/img.png")).2.map Call.genPrompt)
      = [none, some markerReply] ∧
    pyStrip markerReply = markerReply ∧
    markerReply ≠ "a park at night" :=
  ⟨rfl, rfl, by decide⟩

/-- C5 amended: the prompt forwarded to the generation call always equals the
full analysis response text, trimmed (`content.strip()`), whether or not the
text contains section markers; extraction itself never fails the request —
the generation call is always attempted after a successful analysis call. -/
theorem forwarded_prompt_full_trimmed (key : Option String) (req : Request)
    (f : UploadedFile) (p : String) (hf : getFile req "image" = some f)
    (hp : getForm req "prompt" = some p) (content : String)
    (dalleApi : Except String String) :
    ((generate_smart key req (Except.ok content) dalleApi).2.map
      Call.genPrompt) = [none, some (pyStrip content)] := by
  rcases dalleApi with e | u
  · simp only [generate_smart, hf, hp]
    by_cases h429 : strIn "429" e = true
    · simp [h429, Call.genPrompt]
    · simp [h429, Call.genPrompt]
  · simp only [generate_smart, hf, hp]
    simp [Call.genPrompt]

/-- Witness for C5 (amended) at a concrete marker-free reply with
surrounding whitespace. -/
theorem forwarded_prompt_full_trimmed_witness :
    ((generate_smart (some "k") reqSmart (Except.ok " hello ")
        (Except.ok "u")).2.map Call.genPrompt)
      = [none, some (pyStrip " hello ")] :=
  forwarded_prompt_full_trimmed (some "k") reqSmart ⟨"a.png", [1]⟩
    "make it nighttime" rfl rfl " hello " (Except.ok "u")

/-- C6 counterexample: a rate-limiting signal (message containing "429") on
`/generate-variation` is answered with the generic 500 status, not a distinct
rate-limit status. -/
theorem variation_rate_limit_generic_cex :
    strIn "429" "Error code: 429 - rate limit" = true ∧
    (generate_variation nearestKernel (some "k") reqVar decodeWide
        (Except.error "Error code: 429 - rate limit")).1.status = 500 :=
  ⟨by decide, rfl⟩

/-- C6 amended: on `/edit-image` and `/generate-smart` an upstream failure
maps to 429 exactly when its message contains the substring "429" and to the
generic 500 otherwise — so quota exhaustion has no status of its own (a quota
message without "429" gets the generic 500; one containing "429" gets the
rate-limit 429); on `/generate-variation` every upstream failure maps to the
generic 500. -/
theorem upstream_error_status_mapping (R : Resample) (key : Option String)
    (hkey : envTruthy key = true) (req : Request) (f : UploadedFile)
    (p : String) (hf : getFile req "image" = some f)
    (hp : getForm req "prompt" = some p) (hps : pyStrip p ≠ "")
    (hfn : f.filename ≠ "") (hc : f.content ≠ [])
    (decodeF : List Nat → Option Img) (img : Img)
    (hd : decodeF f.content = some img) (content e : String) :
    (edit_image R key req decodeF (Except.error e)).1.status
      = (if strIn "429" e = true then 429 else 500) ∧
    (generate_smart key req (Except.ok content) (Except.error e)).1.status
      = (if strIn "429" e = true then 429 else 500) ∧
    (generate_variation R key req decodeF (Except.error e)).1.status
      = 500 := by
  refine ⟨?_, ?_, ?_⟩
  · simp only [edit_image, hkey, hf, hp]
    rw [if_neg hps, if_neg hfn, if_neg hc, hd, prepare_eq]
    by_cases h429 : strIn "429" e = true
    · simp [h429]
    · simp [h429]
  · simp only [generate_smart, hf, hp]
    by_cases h429 : strIn "429" e = true
    · simp [h429]
    · simp [h429]
  · simp only [generate_variation, hf]
    rw [hd, prepare_eq]

/-- Witness for C6 (amended) at a concrete request and error message. -/
theorem upstream_error_status_mapping_witness :
    (edit_image nearestKernel (some "k") reqEdit decodeWide
        (Except.error "quota exceeded")).1.status
      = (if strIn "429" "quota exceeded" = true then 429 else 500) ∧
    (generate_smart (some "k") reqEdit (Except.ok "c")
        (Except.error "quota exceeded")).1.status
      = (if strIn "429" "quota exceeded" = true then 429 else 500) ∧
    (generate_variation nearestKernel (some "k") reqEdit decodeWide
        (Except.error "quota exceeded")).1.status = 500 :=
  upstream_error_status_mapping nearestKernel (some "k") rfl reqEdit
    ⟨"a.png", [7]⟩ "make it blue" rfl rfl (by decide) (by decide) (by decide)
    decodeWide ⟨2, 1, "RGB", fun _ _ => ⟨5, 5, 5, 0⟩⟩ rfl "c" "quota exceeded"

/-- C7 counterexample: a successful `/edit-image` response body carries the
prompt under the key `edit_prompt`, and contains no `prompt_used` key. -/
theorem edit_success_body_shape_cex :
    (edit_image nearestKernel (some "k") reqEdit decodeWide
        (Except.ok "https://u")).1.body
      = [("image_url", "https://u"), ("edit_prompt", "make it blue"),
         ("method", "OpenAI Edit API")] ∧
    ((edit_image nearestKernel (some "k") reqEdit decodeWide
        (Except.ok "https://u")).1.body.map Prod.fst).contains "prompt_used"
      = false :=
  ⟨rfl, rfl⟩

/-- C7 amended: every successful `/edit-image` response is a 200 whose JSON
body has exactly the shape (image-url, edit-prompt, method) — the prompt is
surfaced under the key `edit_prompt`, not `prompt_used`. -/
theorem edit_success_body_shape (R : Resample) (key : Option String)
    (hkey : envTruthy key = true) (req : Request) (f : UploadedFile)
    (p : String) (hf : getFile req "image" = some f)
    (hp : getForm req "prompt" = some p) (hps : pyStrip p ≠ "")
    (hfn : f.filename ≠ "") (hc : f.content ≠ [])
    (decodeF : List Nat → Option Img) (img : Img)
    (hd : decodeF f.content = some img) (url : String) :
    (edit_image R key req decodeF (Except.ok url)).1.status = 200 ∧
    (edit_image R key req decodeF (Except.ok url)).1.body
      = [("image_url", url), ("edit_prompt", pyStrip p),
         ("method", "OpenAI Edit API")] := by
  refine ⟨?_, ?_⟩ <;>
    (simp only [edit_image, hkey, hf, hp]
     rw [if_neg hps, if_neg hfn, if_neg hc, hd, prepare_eq])

/-- Witness for C7 (amended) at a concrete successful request. -/
theorem edit_success_body_shape_witness :
    (edit_image nearestKernel (some "k") reqEdit decodeWide
        (Except.ok "https://u")).1.status = 200 ∧
    (edit_image nearestKernel (some "k") reqEdit decodeWide
        (Except.ok "https://u")).1.body
      = [("image_url", "https://u"), ("edit_prompt", pyStrip "make it blue"),
         ("method", "OpenAI Edit API")] :=
  edit_success_body_shape nearestKernel (some "k") rfl reqEdit ⟨"a.png", [7]⟩
    "make it blue" rfl rfl (by decide) (by decide) (by decide) decodeWide
    ⟨2, 1, "RGB", fun _ _ => ⟨5, 5, 5, 0⟩⟩ rfl "https://u"

/-- C8 counterexample: with the credential absent, a valid
`/generate-variation` request is not answered with a configuration error —
the handler (which never reads the credential) proceeds, attempts the
external variation call, and returns its result. -/
theorem variation_no_credential_check_cex :
    (generate_variation nearestKernel none reqVar decodeWide
        (Except.ok "https://u")).1
      = ⟨200, [("image_url", "https://u"), ("method", "OpenAI Variation API")]⟩ ∧
    (generate_variation nearestKernel none reqVar decodeWide
        (Except.ok "https://u")).2.length = 1 :=
  ⟨rfl, rfl⟩

/-- C8 amended: only `/edit-image` reports a missing credential as a
configuration error before any external call; `/generate-variation` and
`/generate-smart` never consult the credential — their behavior with the
credential absent is identical to their behavior with it set, external calls
included. -/
theorem credential_check_edit_only (R : Resample) (k : String) (req : Request)
    (decodeF : List Nat → Option Img)
    (api chatApi dalleApi : Except String String) :
    edit_image R none req decodeF api
      = (⟨500, [("error", "OpenAI API key not configured")]⟩, []) ∧
    generate_variation R none req decodeF api
      = generate_variation R (some k) req decodeF api ∧
    generate_smart none req chatApi dalleApi
      = generate_smart (some k) req chatApi dalleApi :=
  ⟨rfl, rfl, rfl⟩

end ImageBackend
